import Mathlib

/-!
Verification of the issue-dashboard aggregation pipeline.

The source is a single pandas script.  The relevant column computations are
embedded as pure functions over lists of records: a DataFrame column becomes a
field of the record structure, a boolean mask filter becomes List.filter, and
an elementwise apply that can raise an exception becomes a traversal into
Except that stops at the first error.  Machine floats are idealised as
rationals; the rounding to one decimal used by the script is modelled exactly
as round half to even on the scaled rational.
-/

namespace BugsDashboard

/-- An enriched issue record.  Fields mirror the DataFrame columns the
aggregation logic reads: the status column, the optional assignee, the
optional numeric host id, and the integer days_open computed at line 40 of
the script.  An absent or NaN cell of an optional column is modelled as
none. -/
structure Issue where
  id : Nat
  module_name : String
  status : String
  assigned_to : Option String
  host : Option Nat
  days_open : Int
deriving DecidableEq, Repr

/-- Hardcoded host mapping from lines 57 to 65 of the script, including the
entry sending a missing host to localhost. -/
def host_mapping : List (Option Nat × String) :=
  [(some 2, "test"), (some 3, "demo"), (some 4, "excellenceacademy"),
   (some 5, "hhrd"), (some 7, "scholastic"), (some 9, "test"),
   (none, "localhost")]

/-- Line 66 of the script: the client column is the host column mapped
through host_mapping, with unmatched values filled with Unknown.  Under
pandas semantics the mapping key None matches a missing host cell, and any
host id absent from the table maps to NaN and is then filled. -/
def client (host : Option Nat) : String :=
  (host_mapping.lookup host).getD "Unknown"

/-- Line 69 of the script: the school_name column is computed by exactly the
same expression as the client column. -/
def school_name (host : Option Nat) : String :=
  (host_mapping.lookup host).getD "Unknown"

/-- Line 41 of the script: assigned_to is not NaN and differs from the
empty string. -/
def is_assigned (assigned_to : Option String) : Bool :=
  match assigned_to with
  | none => false
  | some s => s != ""

/-- Lines 96 to 104 of the script: the school filter.  The mask filter runs
only when the selected list is nonempty (a Python empty list is falsy) and
the select-all checkbox is off; every other branch keeps the frame as is. -/
def apply_school_filter (select_all : Bool) (selected_schools : List String)
    (df : List Issue) : List Issue :=
  if ¬selected_schools.isEmpty ∧ select_all = false then
    df.filter (fun i => selected_schools.contains (school_name i.host))
  else df

/-- Lines 113, 117 and 121 of the script: the per-status KPI counts, each the
length of the frame restricted to one status value. -/
def count_status (s : String) (df : List Issue) : Nat :=
  (df.filter (fun i => i.status == s)).length

/-- Lines 126 and 136 of the script: the frame restricted to the statuses
inprogress and unassigned. -/
def unresolved_df (df : List Issue) : List Issue :=
  df.filter (fun i => ["inprogress", "unassigned"].contains i.status)

/-- Round half to even to an integer, the tie rule of Python round and of
numpy rounding. -/
def round_half_even (q : ℚ) : ℤ :=
  if q - ⌊q⌋ < 1/2 then ⌊q⌋
  else if 1/2 < q - ⌊q⌋ then ⌊q⌋ + 1
  else if 2 ∣ ⌊q⌋ then ⌊q⌋ else ⌊q⌋ + 1

/-- Round to one decimal place, as Python round with second argument 1,
idealised over the rationals. -/
def round1 (q : ℚ) : ℚ :=
  (round_half_even (10 * q) : ℚ) / 10

/-- Arithmetic mean of the days_open column of a frame, as a rational. -/
def mean_days_open (df : List Issue) : ℚ :=
  ((df.map (fun i => (i.days_open : ℚ))).sum) / (df.length : ℚ)

/-- Lines 126 to 127 of the script: the average-days-open KPI is the mean of
days_open over the unresolved frame rounded to one decimal when that frame is
nonempty, and the literal 0 otherwise. -/
def avg_days (df : List Issue) : ℚ :=
  if ¬(unresolved_df df).isEmpty then round1 (mean_days_open (unresolved_df df))
  else 0

/-- Generic binning following pandas cut with its default right-closed
intervals: each bin is a pair of a lower edge and an optional upper edge
(none standing for the infinite float upper edge of the last bin), a value x
lands in the first bin with lower edge strictly below x and upper edge at or
above x, and a value in no bin gets NaN, modelled as none. -/
def cut_right (x : ℚ) : List (ℚ × Option ℚ) → List String → Option String
  | (lo, some hi) :: bs, l :: ls =>
      if lo < x ∧ x ≤ hi then some l else cut_right x bs ls
  | (lo, none) :: _, l :: _ =>
      if lo < x then some l else none
  | _, _ => none

/-- The bin edges of lines 176 to 180 of the script, paired as intervals:
0 to 1, 1 to 3, 3 to 7, 7 to 14, 14 to 30, 30 to 60, and 60 to the infinite
upper edge. -/
def resolution_bins : List (ℚ × Option ℚ) :=
  [(0, some 1), (1, some 3), (3, some 7), (7, some 14),
   (14, some 30), (30, some 60), (60, none)]

/-- The bin labels of line 179 of the script. -/
def resolution_labels : List String :=
  ["<1 day", "1-3 days", "3-7 days", "1-2 weeks", "2-4 weeks",
   "1-2 months", ">2 months"]

/-- Lines 176 to 180 of the script: the resolution_category column assigned
by pandas cut to a resolution time in days. -/
def resolution_category (x : ℚ) : Option String :=
  cut_right x resolution_bins resolution_labels

/-- One row of the client and module performance summary of lines 344 to 357
of the script, with the resolution-rate percentage kept as a rational rather
than the display string. -/
structure SummaryRow where
  client : String
  module_name : String
  total : Nat
  resolved : Nat
  inprogress : Nat
  unassigned : Nat
  assigned : Nat
  avg_days_open : ℚ
  resolution_rate : ℚ
deriving DecidableEq, Repr

/-- Grouping key of line 344 of the script: the pair of the client column and
the module_name column. -/
def group_key (i : Issue) : String × String :=
  (client i.host, i.module_name)

/-- The distinct grouping keys occurring in a frame.  Pandas groupby sorts
its keys; the order of the rows is irrelevant to every stated property, so
the keys are listed in order of first occurrence. -/
def group_keys (df : List Issue) : List (String × String) :=
  (df.map group_key).dedup

/-- The rows of a frame carrying one grouping key. -/
def group_rows (df : List Issue) (k : String × String) : List Issue :=
  df.filter (fun i => group_key i == k)

/-- Lines 344 to 357 of the script, for one group: the issue count, the
per-status counts, the count of non-NaN assignees (note: line 349 tests only
notna, so an empty string counts), the mean days_open rounded to one decimal,
and the resolution rate computed at line 357 as resolved over total times one
hundred, rounded to one decimal. -/
def summary_row (df : List Issue) (k : String × String) : SummaryRow :=
  let rows := group_rows df k
  { client := k.1
    module_name := k.2
    total := rows.length
    resolved := (rows.filter (fun i => i.status == "resolved")).length
    inprogress := (rows.filter (fun i => i.status == "inprogress")).length
    unassigned := (rows.filter (fun i => i.status == "unassigned")).length
    assigned := (rows.filter (fun i => i.assigned_to.isSome)).length
    avg_days_open := round1 (mean_days_open rows)
    resolution_rate :=
      round1 (((rows.filter (fun i => i.status == "resolved")).length : ℚ)
        / (rows.length : ℚ) * 100) }

/-- Lines 344 to 357 of the script: the client and module performance
summary, one row per distinct key of the frame. -/
def module_summary (df : List Issue) : List SummaryRow :=
  (group_keys df).map (summary_row df)

/-- Elementwise application over a column that propagates the first raised
exception: pandas apply and pandas to_datetime abort on the first failing
element instead of skipping it. -/
def map_strict {α β : Type} (f : α → Except String β) : List α → Except String (List β)
  | [] => .ok []
  | a :: as =>
    match f a with
    | .error e => .error e
    | .ok b => (map_strict f as).map (b :: ·)

/-- Lines 44 to 46 of the script, for one cell: when additional_data is NaN
the result is None; when it is present it is fed to json loads, which either
returns a document from which the user_id key is read (modelled by the
json_loads argument returning some value) or raises a decode error (modelled
by it returning none), and the script installs no per-record handler. -/
def extract_user_id (json_loads : String → Option (Option Nat))
    (additional_data : Option String) : Except String (Option Nat) :=
  match additional_data with
  | none => .ok none
  | some s =>
    match json_loads s with
    | none => .error "JSONDecodeError"
    | some uid => .ok uid

/-- Lines 44 to 46 of the script: the user_id column is the additional_data
column mapped elementwise, with any raised decode error propagating out of
the whole apply. -/
def user_id_column (json_loads : String → Option (Option Nat))
    (xs : List (Option String)) : Except String (List (Option Nat)) :=
  map_strict (extract_user_id json_loads) xs

/-- Line 39 of the script, for one cell: pandas to_datetime either parses the
string to a timestamp (modelled by the to_datetime argument returning some
integer timestamp) or raises (modelled by it returning none), and the script
passes no errors keyword, so the default raising behaviour applies. -/
def parse_reported_date (to_datetime : String → Option Int)
    (s : String) : Except String Int :=
  match to_datetime s with
  | none => .error "DateParseError"
  | some t => .ok t

/-- Line 39 of the script: the reported_date column conversion, with any
raised parse error propagating out of the whole conversion. -/
def reported_date_column (to_datetime : String → Option Int)
    (xs : List String) : Except String (List Int) :=
  map_strict (parse_reported_date to_datetime) xs

/-- A sample resolved issue used in concrete evaluations. -/
def ex_issue : Issue :=
  { id := 1, module_name := "auth", status := "resolved",
    assigned_to := some "dev", host := some 5, days_open := 2 }

/- ------------------------------------------------------------------ -/
/- Theorems. -/
/- ------------------------------------------------------------------ -/

/-- C1 counterexample: the claim places a resolution time of 0 days in the
first bucket, but pandas cut with its default right-closed bins leaves the
value 0 outside every bin, and places the boundary value 1 in the first
bucket rather than the second. -/
theorem resolution_category_zero_cex :
    resolution_category 0 = none ∧ resolution_category 0 ≠ some "<1 day" ∧
    resolution_category 1 = some "<1 day" := by
  refine ⟨by decide, by decide, by decide⟩

/-- C1 amended: the bucketing uses left-open right-closed bins, so a resolved
issue with positive resolution time falls in exactly one bucket, the bucket
of 0.5 days is the first, and a resolution time of 0 (or below) falls in no
bucket at all. -/
theorem resolution_category_bins (x : ℚ) :
    (x ≤ 0 → resolution_category x = none) ∧
    (0 < x ∧ x ≤ 1 → resolution_category x = some "<1 day") ∧
    (1 < x ∧ x ≤ 3 → resolution_category x = some "1-3 days") ∧
    (3 < x ∧ x ≤ 7 → resolution_category x = some "3-7 days") ∧
    (7 < x ∧ x ≤ 14 → resolution_category x = some "1-2 weeks") ∧
    (14 < x ∧ x ≤ 30 → resolution_category x = some "2-4 weeks") ∧
    (30 < x ∧ x ≤ 60 → resolution_category x = some "1-2 months") ∧
    (60 < x → resolution_category x = some ">2 months") := by
  have e : resolution_category x =
      (if 0 < x ∧ x ≤ 1 then some "<1 day" else
       if 1 < x ∧ x ≤ 3 then some "1-3 days" else
       if 3 < x ∧ x ≤ 7 then some "3-7 days" else
       if 7 < x ∧ x ≤ 14 then some "1-2 weeks" else
       if 14 < x ∧ x ≤ 30 then some "2-4 weeks" else
       if 30 < x ∧ x ≤ 60 then some "1-2 months" else
       if 60 < x then some ">2 months" else none) := rfl
  rw [e]
  refine ⟨fun h => ?_, fun h => ?_, fun h => ?_, fun h => ?_,
    fun h => ?_, fun h => ?_, fun h => ?_, fun h => ?_⟩
  · rw [if_neg (by rintro ⟨a, b⟩; linarith), if_neg (by rintro ⟨a, b⟩; linarith),
      if_neg (by rintro ⟨a, b⟩; linarith), if_neg (by rintro ⟨a, b⟩; linarith),
      if_neg (by rintro ⟨a, b⟩; linarith), if_neg (by rintro ⟨a, b⟩; linarith),
      if_neg (show ¬(60:ℚ) < x by linarith)]
  · rw [if_pos h]
  · obtain ⟨h1, h2⟩ := h
    rw [if_neg (by rintro ⟨a, b⟩; linarith), if_pos ⟨h1, h2⟩]
  · obtain ⟨h1, h2⟩ := h
    rw [if_neg (by rintro ⟨a, b⟩; linarith), if_neg (by rintro ⟨a, b⟩; linarith),
      if_pos ⟨h1, h2⟩]
  · obtain ⟨h1, h2⟩ := h
    rw [if_neg (by rintro ⟨a, b⟩; linarith), if_neg (by rintro ⟨a, b⟩; linarith),
      if_neg (by rintro ⟨a, b⟩; linarith), if_pos ⟨h1, h2⟩]
  · obtain ⟨h1, h2⟩ := h
    rw [if_neg (by rintro ⟨a, b⟩; linarith), if_neg (by rintro ⟨a, b⟩; linarith),
      if_neg (by rintro ⟨a, b⟩; linarith), if_neg (by rintro ⟨a, b⟩; linarith),
      if_pos ⟨h1, h2⟩]
  · obtain ⟨h1, h2⟩ := h
    rw [if_neg (by rintro ⟨a, b⟩; linarith), if_neg (by rintro ⟨a, b⟩; linarith),
      if_neg (by rintro ⟨a, b⟩; linarith), if_neg (by rintro ⟨a, b⟩; linarith),
      if_neg (by rintro ⟨a, b⟩; linarith), if_pos ⟨h1, h2⟩]
  · rw [if_neg (by rintro ⟨a, b⟩; linarith), if_neg (by rintro ⟨a, b⟩; linarith),
      if_neg (by rintro ⟨a, b⟩; linarith), if_neg (by rintro ⟨a, b⟩; linarith),
      if_neg (by rintro ⟨a, b⟩; linarith), if_neg (by rintro ⟨a, b⟩; linarith),
      if_pos h]

/-- C1 witness: 0.5 days falls in the first bucket. -/
theorem resolution_category_bins_witness :
    resolution_category (1/2) = some "<1 day" :=
  (resolution_category_bins (1/2)).2.1 ⟨by norm_num, by norm_num⟩

/-- C2 counterexample: with select-all off and an empty explicit selection,
the script keeps the whole frame (the empty list is falsy, so the filter
branch does not run); the claim expects an empty working set. -/
theorem empty_selection_cex :
    apply_school_filter false [] [ex_issue] = [ex_issue] ∧
    apply_school_filter false [] [ex_issue] ≠ [] := by
  refine ⟨by decide, ?_⟩
  intro h
  exact absurd ((by decide : apply_school_filter false [] [ex_issue] = [ex_issue]).symm.trans h)
    (by decide)

/-- C2 amended: an explicit empty selection with select-all off leaves the
working set unchanged, so it is the full frame rather than the empty one; no
error is raised either way. -/
theorem empty_selection_keeps_frame (df : List Issue) :
    apply_school_filter false [] df = df := by
  simp [apply_school_filter]

/-- C10: selecting all is the identity on the frame, and any filter outcome
is a sublist of the input, hence a subset by membership built from the very
same unmutated records. -/
theorem filter_subset_and_all_identity (select_all : Bool)
    (selected_schools : List String) (df : List Issue) :
    apply_school_filter true selected_schools df = df ∧
    (apply_school_filter select_all selected_schools df).Sublist df := by
  constructor
  · simp [apply_school_filter]
  · unfold apply_school_filter
    split
    · exact List.filter_sublist df
    · exact List.Sublist.refl df

/-- C5: a mapped host id gets its table entry, an unmapped non-null host id
gets Unknown, and a missing host gets localhost; the label is total, so every
issue carries a client label after enrichment. -/
theorem client_lookup_spec (h : Nat) (name : String) :
    ((some h, name) ∈ host_mapping → client (some h) = name) ∧
    ((∀ n : String, (some h, n) ∉ host_mapping) → client (some h) = "Unknown") ∧
    client none = "localhost" := by
  refine ⟨?_, ?_, by decide⟩
  · intro hmem
    simp only [host_mapping, List.mem_cons, List.not_mem_nil, or_false,
      Prod.mk.injEq, Option.some.injEq, reduceCtorEq, false_and] at hmem
    rcases hmem with ⟨h1, h2⟩ | ⟨h1, h2⟩ | ⟨h1, h2⟩ | ⟨h1, h2⟩ | ⟨h1, h2⟩ | ⟨h1, h2⟩ <;>
      subst h1 <;> subst h2 <;> decide
  · intro hnone
    have h2 : h ≠ 2 := fun e => hnone "test" (by simp [host_mapping, e])
    have h3 : h ≠ 3 := fun e => hnone "demo" (by simp [host_mapping, e])
    have h4 : h ≠ 4 := fun e => hnone "excellenceacademy" (by simp [host_mapping, e])
    have h5 : h ≠ 5 := fun e => hnone "hhrd" (by simp [host_mapping, e])
    have h7 : h ≠ 7 := fun e => hnone "scholastic" (by simp [host_mapping, e])
    have h9 : h ≠ 9 := fun e => hnone "test" (by simp [host_mapping, e])
    have b2 : (h == 2) = false := beq_eq_false_iff_ne.mpr h2
    have b3 : (h == 3) = false := beq_eq_false_iff_ne.mpr h3
    have b4 : (h == 4) = false := beq_eq_false_iff_ne.mpr h4
    have b5 : (h == 5) = false := beq_eq_false_iff_ne.mpr h5
    have b7 : (h == 7) = false := beq_eq_false_iff_ne.mpr h7
    have b9 : (h == 9) = false := beq_eq_false_iff_ne.mpr h9
    simp [client, host_mapping, List.lookup, b2, b3, b4, b5, b7, b9]

/-- C5 witness: host id 5 is mapped and its label is the table entry. -/
theorem client_lookup_spec_witness :
    client (some 5) = "hhrd" :=
  (client_lookup_spec 5 "hhrd").1 (by decide)

/-- C7: when every status in the frame is one of the three canonical values,
the three per-status KPI counts sum to the total KPI. -/
theorem status_counts_sum_to_total (df : List Issue)
    (h : ∀ i ∈ df, i.status = "resolved" ∨ i.status = "inprogress" ∨
      i.status = "unassigned") :
    count_status "resolved" df + count_status "inprogress" df +
      count_status "unassigned" df = df.length := by
  induction df with
  | nil => rfl
  | cons a as ih =>
    have ha := h a (List.mem_cons_self a as)
    have ih2 := ih (fun i hi => h i (List.mem_cons_of_mem a hi))
    simp only [count_status, List.filter_cons, List.length_cons] at *
    rcases ha with ha | ha | ha <;> simp only [ha] <;> simp <;> omega

/-- Helper: an element on which the applied function raises makes the whole
strict elementwise application raise. -/
theorem map_strict_error {α β : Type} (f : α → Except String β) (xs : List α)
    (a : α) (e : String) (ha : a ∈ xs) (hf : f a = .error e) :
    ∃ e2, map_strict f xs = .error e2 := by
  induction xs with
  | nil => cases ha
  | cons b bs ih =>
    rcases List.mem_cons.mp ha with rfl | hmem
    · exact ⟨e, by simp [map_strict, hf]⟩
    · cases hfb : f b with
      | error e3 => exact ⟨e3, by simp [map_strict, hfb]⟩
      | ok c =>
        obtain ⟨e2, he2⟩ := ih hmem
        exact ⟨e2, by simp [map_strict, hfb, he2, Except.map]⟩

/-- A concrete stand-in for json loads used only at concrete inputs: the one
well-formed document, written good, parses to a record whose user_id is 7;
every other string is malformed and raises a decode error. -/
def ex_json_loads : String → Option (Option Nat) :=
  fun s => if s = "good" then some (some 7) else none

/-- C3 counterexample: a batch holding a well-formed cell, a malformed cell
and a missing cell does not yield a user_id column with None at the
malformed position; the whole elementwise apply aborts with the decode
error. -/
theorem user_id_batch_abort_cex :
    user_id_column ex_json_loads [some "good", some "bad", none] =
      .error "JSONDecodeError" ∧
    user_id_column ex_json_loads [some "good", some "bad", none] ≠
      .ok [some 7, none, none] := by
  refine ⟨rfl, ?_⟩
  intro h
  exact Except.noConfusion ((rfl : user_id_column ex_json_loads
    [some "good", some "bad", none] = .error "JSONDecodeError").symm.trans h)

/-- C3 amended: a present additional_data cell that fails to parse makes the
whole user_id column computation raise, aborting the batch; only a missing
cell yields None. -/
theorem user_id_parse_failure_aborts (json_loads : String → Option (Option Nat))
    (xs : List (Option String)) (s : String)
    (hmem : some s ∈ xs) (hfail : json_loads s = none) :
    (∃ e, user_id_column json_loads xs = .error e) ∧
    extract_user_id json_loads none = .ok none := by
  refine ⟨?_, rfl⟩
  exact map_strict_error _ xs (some s) "JSONDecodeError" hmem
    (by simp [extract_user_id, hfail])

/-- C3 witness: a single malformed cell aborts its batch. -/
theorem user_id_parse_failure_aborts_witness :
    (∃ e, user_id_column ex_json_loads [some "bad"] = .error e) ∧
    extract_user_id ex_json_loads none = .ok none :=
  user_id_parse_failure_aborts ex_json_loads [some "bad"] "bad"
    (by decide) (by decide)

/-- A concrete stand-in for pandas to_datetime used only at concrete inputs:
one well-formed date string parses to a timestamp, every other string
raises. -/
def ex_to_datetime : String → Option Int :=
  fun s => if s = "2024-01-01" then some 19723 else none

/-- C4 counterexample: a batch holding one well-formed and one unparseable
reported_date does not yield a converted column with the bad record excluded
and a skip tally; the whole conversion aborts with the parse error, so the
well-formed record is not processed either. -/
theorem reported_date_batch_abort_cex :
    reported_date_column ex_to_datetime ["2024-01-01", "garbage"] =
      .error "DateParseError" ∧
    reported_date_column ex_to_datetime ["2024-01-01", "garbage"] ≠
      .ok [19723] := by
  refine ⟨rfl, ?_⟩
  intro h
  exact Except.noConfusion ((rfl : reported_date_column ex_to_datetime
    ["2024-01-01", "garbage"] = .error "DateParseError").symm.trans h)

/-- C4 amended: a record whose reported_date cannot be parsed makes the
column conversion raise, aborting the whole cleaning step; no record reaches
any downstream stage and no skipped tally exists in the code. -/
theorem reported_date_parse_failure_aborts (to_datetime : String → Option Int)
    (xs : List String) (s : String)
    (hmem : s ∈ xs) (hfail : to_datetime s = none) :
    ∃ e, reported_date_column to_datetime xs = .error e :=
  map_strict_error _ xs s "DateParseError" hmem
    (by simp [parse_reported_date, hfail])

/-- C4 witness: a single unparseable date aborts its batch. -/
theorem reported_date_parse_failure_aborts_witness :
    ∃ e, reported_date_column ex_to_datetime ["garbage"] = .error e :=
  reported_date_parse_failure_aborts ex_to_datetime ["garbage"] "garbage"
    (by decide) (by decide)

/-- C7 witness: a one-element frame with a canonical status. -/
theorem status_counts_sum_to_total_witness :
    count_status "resolved" [ex_issue] + count_status "inprogress" [ex_issue] +
      count_status "unassigned" [ex_issue] = 1 :=
  status_counts_sum_to_total [ex_issue] (by decide)

/-- A sample in-progress issue open zero days. -/
def ex_ip0 : Issue :=
  { id := 10, module_name := "auth", status := "inprogress",
    assigned_to := some "dev", host := some 2, days_open := 0 }

/-- A sample unassigned issue open zero days. -/
def ex_ip0b : Issue :=
  { id := 11, module_name := "auth", status := "unassigned",
    assigned_to := none, host := some 2, days_open := 0 }

/-- A sample in-progress issue open one day. -/
def ex_ip1 : Issue :=
  { id := 12, module_name := "ui", status := "inprogress",
    assigned_to := none, host := some 3, days_open := 1 }

/-- C8 counterexample: over three unresolved issues with days_open 0, 0 and
1 the script reports three tenths, the mean rounded to one decimal, not the
arithmetic mean of one third that the claim states. -/
theorem avg_days_rounding_cex :
    avg_days [ex_ip0, ex_ip0b, ex_ip1] = 3/10 ∧
    mean_days_open (unresolved_df [ex_ip0, ex_ip0b, ex_ip1]) = 1/3 ∧
    avg_days [ex_ip0, ex_ip0b, ex_ip1] ≠ 1/3 := by
  have hu : unresolved_df [ex_ip0, ex_ip0b, ex_ip1] = [ex_ip0, ex_ip0b, ex_ip1] := rfl
  have hm : mean_days_open [ex_ip0, ex_ip0b, ex_ip1] = 1/3 := by
    norm_num [mean_days_open, ex_ip0, ex_ip0b, ex_ip1]
  have hf : ⌊(10:ℚ) * (1/3)⌋ = 3 := Int.floor_eq_iff.mpr (by norm_num)
  have hr : avg_days [ex_ip0, ex_ip0b, ex_ip1] = 3/10 := by
    unfold avg_days
    rw [hu, if_pos (by decide), hm]
    unfold round1 round_half_even
    rw [hf, if_pos (by norm_num)]
    norm_num
  refine ⟨hr, by rw [hu]; exact hm, by rw [hr]; norm_num⟩

/-- C8 amended: the KPI equals the mean days_open over the issues whose
status is inprogress or unassigned rounded to one decimal when such an issue
exists, and the literal 0 when none exists, in particular when every issue
is resolved; the value is a total rational, never NaN. -/
theorem avg_days_kpi (df : List Issue) :
    ((∀ i ∈ df, i.status ≠ "inprogress" ∧ i.status ≠ "unassigned") →
      avg_days df = 0) ∧
    (∀ i ∈ df, (i.status = "inprogress" ∨ i.status = "unassigned") →
      avg_days df = round1 (mean_days_open
        (df.filter (fun j => j.status == "inprogress" || j.status == "unassigned")))) := by
  have hpt : ∀ j : Issue,
      (["inprogress", "unassigned"].contains j.status) =
      (j.status == "inprogress" || j.status == "unassigned") := by
    intro j
    by_cases h1 : j.status = "inprogress" <;> by_cases h2 : j.status = "unassigned" <;>
      simp [h1, h2]
  have hud : unresolved_df df =
      df.filter (fun j => j.status == "inprogress" || j.status == "unassigned") := by
    unfold unresolved_df
    exact List.filter_congr (fun j _ => hpt j)
  constructor
  · intro hall
    have hnil : unresolved_df df = [] := by
      rw [hud, List.filter_eq_nil_iff]
      intro j hj
      rcases hall j hj with ⟨h1, h2⟩
      simp [h1, h2]
    simp [avg_days, hnil]
  · intro i hi hst
    have hmemf : i ∈ df.filter
        (fun j => j.status == "inprogress" || j.status == "unassigned") :=
      List.mem_filter.mpr ⟨hi, by rcases hst with h | h <;> simp [h]⟩
    have hne : ¬(unresolved_df df).isEmpty := by
      rw [hud]
      intro hempty
      rw [List.isEmpty_iff] at hempty
      rw [hempty] at hmemf
      cases hmemf
    unfold avg_days
    rw [if_pos hne, hud]

/-- C8 witness: an all-resolved frame gives 0 and a frame with unresolved
issues gives the rounded mean. -/
theorem avg_days_kpi_witness :
    avg_days [ex_issue] = 0 ∧
    avg_days [ex_ip0, ex_ip0b, ex_ip1] = round1 (mean_days_open
      ([ex_ip0, ex_ip0b, ex_ip1].filter
        (fun j => j.status == "inprogress" || j.status == "unassigned"))) :=
  ⟨(avg_days_kpi [ex_issue]).1 (by decide),
   (avg_days_kpi [ex_ip0, ex_ip0b, ex_ip1]).2 ex_ip0 (by decide) (Or.inl rfl)⟩

/-- A sample issue whose assignee cell holds the empty string. -/
def ex_empty_assignee : Issue :=
  { id := 13, module_name := "ui", status := "inprogress",
    assigned_to := some "", host := some 5, days_open := 3 }

/-- C6 counterexample: an issue whose assignee is the empty string is not
assigned under the per-issue flag of line 41, yet the summary of line 349,
which tests only notna, counts it; so the summary assigned count differs from
the count of present nonempty assignees. -/
theorem summary_assigned_empty_string_cex :
    is_assigned ex_empty_assignee.assigned_to = false ∧
    (module_summary [ex_empty_assignee]).map (fun r => r.assigned) = [1] ∧
    ([ex_empty_assignee].filter (fun i => is_assigned i.assigned_to)).length = 0 ∧
    (module_summary [ex_empty_assignee]).map (fun r => r.assigned) ≠
      [([ex_empty_assignee].filter (fun i => is_assigned i.assigned_to)).length] := by
  refine ⟨rfl, rfl, rfl, ?_⟩
  intro h
  exact List.noConfusion ((rfl : (module_summary [ex_empty_assignee]).map
    (fun r => r.assigned) = [1]).symm.trans h) (fun h1 _ => Nat.noConfusion h1)

/-- C6 amended: the per-issue flag is present-and-nonempty as claimed, but
the assigned count of the client and module summary counts the rows of the
group whose assignee is merely present, so an empty-string assignee is
counted as assigned there. -/
theorem is_assigned_and_summary_assigned (a : Option String) (df : List Issue)
    (row : SummaryRow) (hrow : row ∈ module_summary df) :
    (is_assigned a = true ↔ a ≠ none ∧ a ≠ some "") ∧
    row.assigned = (df.filter (fun i =>
      i.assigned_to.isSome && (group_key i == (row.client, row.module_name)))).length := by
  constructor
  · cases a with
    | none => simp [is_assigned]
    | some s => simp [is_assigned]
  · obtain ⟨k, hk, hkeq⟩ := List.mem_map.mp hrow
    subst hkeq
    simp only [summary_row, group_rows, Prod.mk.eta, List.filter_filter]

/-- C6 witness: the amended statement at a one-issue frame. -/
theorem is_assigned_and_summary_assigned_witness :
    (is_assigned (some "") = true ↔ (some "" : Option String) ≠ none ∧
      (some "" : Option String) ≠ some "") ∧
    (summary_row [ex_empty_assignee] ("hhrd", "ui")).assigned =
      ([ex_empty_assignee].filter (fun i =>
        i.assigned_to.isSome && (group_key i == ("hhrd", "ui")))).length :=
  is_assigned_and_summary_assigned (some "") [ex_empty_assignee]
    (summary_row [ex_empty_assignee] ("hhrd", "ui"))
    (by rw [show module_summary [ex_empty_assignee] =
          [summary_row [ex_empty_assignee] ("hhrd", "ui")] from rfl]
        exact List.mem_singleton.mpr rfl)

/-- C9: every row of the client and module summary covers a nonempty group,
and its resolution rate is the resolved count of the group divided by its
total, times one hundred, rounded to one decimal, with both counts recomputed
independently by filtering the input frame. -/
theorem resolution_rate_recomputed (df : List Issue) (row : SummaryRow)
    (hrow : row ∈ module_summary df) :
    0 < row.total ∧
    row.resolution_rate = round1
      (((df.filter (fun i => i.status == "resolved" &&
          (group_key i == (row.client, row.module_name)))).length : ℚ) /
        ((df.filter (fun i =>
          group_key i == (row.client, row.module_name))).length : ℚ) * 100) := by
  obtain ⟨k, hk, hkeq⟩ := List.mem_map.mp hrow
  subst hkeq
  obtain ⟨i, hi, hik⟩ := List.mem_map.mp (List.mem_dedup.mp hk)
  have himem : i ∈ group_rows df k :=
    List.mem_filter.mpr ⟨hi, by simp [hik]⟩
  constructor
  · simpa [summary_row] using List.length_pos_of_mem himem
  · simp only [summary_row, group_rows, Prod.mk.eta, List.filter_filter]

/-- C9 witness: the rate of the single summary row of a one-issue frame. -/
theorem resolution_rate_recomputed_witness :
    0 < (summary_row [ex_issue] ("hhrd", "auth")).total ∧
    (summary_row [ex_issue] ("hhrd", "auth")).resolution_rate =
      round1 ((([ex_issue].filter (fun i => i.status == "resolved" &&
          (group_key i == ("hhrd", "auth")))).length : ℚ) /
        (([ex_issue].filter (fun i =>
          group_key i == ("hhrd", "auth"))).length : ℚ) * 100) :=
  resolution_rate_recomputed [ex_issue] (summary_row [ex_issue] ("hhrd", "auth"))
    (by rw [show module_summary [ex_issue] =
          [summary_row [ex_issue] ("hhrd", "auth")] from rfl]
        exact List.mem_singleton.mpr rfl)

end BugsDashboard
